import Mathlib

/-!
Verification of the Kessel authorization layer of playbook-dispatcher.

The Go source is shallowly embedded: the `KesselClient` interface becomes a
structure of pure functions returning `Except String`, a Go `(T, error)`
return becomes `Except String T`, and a Go slice that may be `nil` becomes
`Option (List String)` (`none` = nil slice, `some xs` = non-nil slice).
-/

namespace PD

/-- `kessel.Subject` from types.go: who is requesting access. -/
structure Subject where
  type : String
  id : String
  tenant : String
deriving DecidableEq, Repr

/-- `kessel.Resource` from types.go: what is being accessed. -/
structure Resource where
  type : String
  id : String
  tenant : String
deriving DecidableEq, Repr

/-- `kessel.ResourceCheck` from types.go: a single authorization check. -/
structure ResourceCheck where
  subject : Subject
  relation : String
  resource : Resource
deriving DecidableEq, Repr

/-- `ResourceTypeRun` constant. -/
def ResourceTypeRun : String := "playbook-dispatcher/run"

/-- `ResourceTypeRunHost` constant. -/
def ResourceTypeRunHost : String := "playbook-dispatcher/run_host"

/-- `ResourceTypeOrg` constant. -/
def ResourceTypeOrg : String := "playbook-dispatcher/org"

/-- `RelationRead` constant. -/
def RelationRead : String := "read"

/-- `RelationWrite` constant. -/
def RelationWrite : String := "write"

/-- `RelationCancel` constant. -/
def RelationCancel : String := "cancel"

/-- `SubjectTypeUser` constant. -/
def SubjectTypeUser : String := "user"

/-- `ServicePermissionResourceType` from services.go. -/
def ServicePermissionResourceType : String := "playbook-dispatcher/service-permission"

/-- `ServicePermissionRelationReader` from services.go. -/
def ServicePermissionRelationReader : String := "reader"

/-- `KnownServices` from services.go: all services that can create playbook runs. -/
def KnownServices : List String :=
  [ "remediations",
    "config-manager",
    "vulnerability",
    "advisor",
    "compliance",
    "drift",
    "policies",
    "resource-optimization" ]

/-- The `KesselClient` interface (types.go), embedded as a structure of pure
functions.  `checkBatch_length` is the documented interface contract that
`results[i]` corresponds to `checks[i]` (README: batch results are positional);
both implementations in the repository (`clientImpl` and `mockClient`) return
one result per check. -/
structure KesselClient where
  check : ResourceCheck → Except String Bool
  checkBatch : List ResourceCheck → Except String (List Bool)
  checkBatch_length : ∀ cs rs, checkBatch cs = Except.ok rs → rs.length = cs.length

/-- The org-level check built by `GetAllowedServices` / `HasServiceAccess`
(services.go): relation `read` on the org resource whose ID is the tenant. -/
def orgCheck (subject : Subject) : ResourceCheck :=
  { subject := subject
    relation := RelationRead
    resource :=
      { type := ResourceTypeOrg
        id := subject.tenant
        tenant := subject.tenant } }

/-- The per-service check built inside `getServicePermissions` (services.go). -/
def servicePermissionCheck (subject : Subject) (service : String) : ResourceCheck :=
  { subject := subject
    relation := ServicePermissionRelationReader
    resource :=
      { type := ServicePermissionResourceType
        id := service
        tenant := subject.tenant } }

/-- The loop `for i, allowed := range results { if allowed { out = append(out,
ids[i]) } }`: collect the elements of `ids` whose corresponding flag is true.
(Equal to the Go loop whenever `results` is no longer than `ids`, which the
`checkBatch_length` contract guarantees at every use site.) -/
def collectAllowed : List Bool → List String → List String
  | true :: rs, x :: xs => x :: collectAllowed rs xs
  | false :: rs, _ :: xs => collectAllowed rs xs
  | _, _ => []

/-- `getServicePermissions` (services.go): batch-check every known service,
collect the allowed ones.  Go return `(services []string, filterRequired bool,
err error)` becomes `Except String (Option (List String) × Bool)`; the deny-all
branch `return nil, true, nil` is `.ok (none, true)`. -/
def getServicePermissions (client : KesselClient) (subject : Subject) :
    Except String (Option (List String) × Bool) :=
  let checks := KnownServices.map (servicePermissionCheck subject)
  match client.checkBatch checks with
  | Except.error e => Except.error e
  | Except.ok results =>
    let allowedServices := collectAllowed results KnownServices
    if allowedServices.length = 0 then
      Except.ok (none, true)
    else
      Except.ok (some allowedServices, true)

/-- `GetAllowedServices` (services.go): org-level check first; on allow, no
filtering is required (`return nil, false, nil`); on deny, fall through to the
per-service permissions. -/
def GetAllowedServices (client : KesselClient) (subject : Subject) :
    Except String (Option (List String) × Bool) :=
  match client.check (orgCheck subject) with
  | Except.error e => Except.error e
  | Except.ok true => Except.ok (none, false)
  | Except.ok false => getServicePermissions client subject

/-- `HasServiceAccess` (services.go). -/
def HasServiceAccess (client : KesselClient) (subject : Subject) (service : String) :
    Except String Bool :=
  match client.check (orgCheck subject) with
  | Except.error e => Except.error e
  | Except.ok true => Except.ok true
  | Except.ok false => client.check (servicePermissionCheck subject service)

/-! ### The gRPC client implementation (client.go) -/

/-- `checkv1.CheckResponse.Allowed` enum values. -/
inductive CheckAllowed
  | ALLOWED_UNSPECIFIED
  | ALLOWED_TRUE
  | ALLOWED_FALSE
deriving DecidableEq, Repr

/-- The `checkv1.CheckRequest` built by `clientImpl.Check` / `CheckBatch`
(client.go): subject type and ID, relation, resource type and ID.  The Go
translation drops the `Tenant` fields of both `Subject` and `Resource`. -/
structure CheckRequest where
  subjectType : String
  subjectId : String
  relation : String
  resourceType : String
  resourceId : String
deriving DecidableEq, Repr

/-- The request translation performed inline in `clientImpl.Check` and
`clientImpl.CheckBatch` (client.go). -/
def toCheckRequest (c : ResourceCheck) : CheckRequest :=
  { subjectType := c.subject.type
    subjectId := c.subject.id
    relation := c.relation
    resourceType := c.resource.type
    resourceId := c.resource.id }

/-- `clientImpl.Check` (client.go), over an abstract gRPC check service `svc`
(the remote `KesselCheckServiceClient.Check`): wrap a transport error, else
compare the response with `ALLOWED_TRUE`. -/
def checkImpl (svc : CheckRequest → Except String CheckAllowed) (c : ResourceCheck) :
    Except String Bool :=
  match svc (toCheckRequest c) with
  | Except.error e => Except.error ("kessel check failed: " ++ e)
  | Except.ok a => Except.ok (a = CheckAllowed.ALLOWED_TRUE)

/-- The loop of `clientImpl.CheckBatch` (client.go), carrying the running
index `i`: one individual call per item, and a failure at any index aborts the
whole batch with `kessel batch check failed at index i`. -/
def checkBatchImplAux (svc : CheckRequest → Except String CheckAllowed) :
    Nat → List ResourceCheck → Except String (List Bool)
  | _, [] => Except.ok []
  | i, c :: cs =>
    match svc (toCheckRequest c) with
    | Except.error e =>
      Except.error ("kessel batch check failed at index " ++ toString i ++ ": " ++ e)
    | Except.ok a =>
      match checkBatchImplAux svc (i + 1) cs with
      | Except.error e => Except.error e
      | Except.ok rest => Except.ok ((a = CheckAllowed.ALLOWED_TRUE) :: rest)

/-- `clientImpl.CheckBatch` (client.go). -/
def checkBatchImpl (svc : CheckRequest → Except String CheckAllowed)
    (checks : List ResourceCheck) : Except String (List Bool) :=
  checkBatchImplAux svc 0 checks

theorem checkBatchImplAux_length (svc : CheckRequest → Except String CheckAllowed) :
    ∀ (i : Nat) (cs : List ResourceCheck) (rs : List Bool),
      checkBatchImplAux svc i cs = Except.ok rs → rs.length = cs.length := by
  intro i cs
  induction cs generalizing i with
  | nil =>
    intro rs h
    simp only [checkBatchImplAux] at h
    cases h
    rfl
  | cons c cs ih =>
    intro rs h
    simp only [checkBatchImplAux] at h
    cases hsvc : svc (toCheckRequest c) with
    | error e => rw [hsvc] at h; cases h
    | ok a =>
      rw [hsvc] at h
      cases hrec : checkBatchImplAux svc (i + 1) cs with
      | error e => rw [hrec] at h; cases h
      | ok rest =>
        rw [hrec] at h
        cases h
        simp [ih (i + 1) rest hrec]

/-- The whole `clientImpl` (client.go) as a `KesselClient`, parameterized by
the remote check service. -/
def clientImplOf (svc : CheckRequest → Except String CheckAllowed) : KesselClient :=
  { check := checkImpl svc
    checkBatch := checkBatchImpl svc
    checkBatch_length := fun cs rs h => checkBatchImplAux_length svc 0 cs rs h }

/-- `mockClient` (mock.go) as a `KesselClient`: every check returns
`allowAll`. -/
def mockClientOf (allowAll : Bool) : KesselClient :=
  { check := fun _ => Except.ok allowAll
    checkBatch := fun cs => Except.ok (cs.map (fun _ => allowAll))
    checkBatch_length := by
      intro cs rs h
      cases h
      simp }

/-! ### Attribute filters (internal/api/kessel/filters.go) -/

/-- `GetAttributeFilters` (filters.go): the body unconditionally returns
`[]string{}` together with the non-nil error
`attribute filtering not yet implemented in Kessel`. -/
def GetAttributeFilters (client : KesselClient) (subject : Subject)
    (relation resourceType attributeKey : String) : Except String (List String) :=
  Except.error "attribute filtering not yet implemented in Kessel"

/-- `CheckWithAttributes` (filters.go): a plain check; attribute narrowing is
not implemented, so an allowed basic check is returned as-is. -/
def CheckWithAttributes (client : KesselClient) (check : ResourceCheck)
    (attributes : List (String × String)) : Except String Bool :=
  match client.check check with
  | Except.error e => Except.error e
  | Except.ok false => Except.ok false
  | Except.ok true => Except.ok true

/-- `FilterByServicePermission` (filters.go): the body is a placeholder that
always returns `nil, false, nil` (no filtering, allow all services). -/
def FilterByServicePermission (client : KesselClient) (subject : Subject)
    (relation resourceType : String) : Except String (Option (List String) × Bool) :=
  Except.ok (none, false)

/-- Length of a possibly-nil Go slice: `len(nil) = 0`. -/
def goLen (s : Option (List String)) : Nat := (s.getD []).length

/-- `ApplyServiceFilter` (filters.go): delegate to `FilterByServicePermission`,
then `if !filtering || len(services) == 0 { return nil, false, nil }`. -/
def ApplyServiceFilter (client : KesselClient) (subject : Subject) :
    Except String (Option (List String) × Bool) :=
  match FilterByServicePermission client subject RelationRead ResourceTypeRun with
  | Except.error e => Except.error e
  | Except.ok (services, filtering) =>
    if !filtering || goLen services = 0 then
      Except.ok (none, false)
    else
      Except.ok (services, true)

/-! ### Check constructors (types.go) and resource filtering (utils.go) -/

/-- `DispatcherResourceCheck` (types.go): helper constructor; the resource
tenant is always taken from the subject. -/
def DispatcherResourceCheck (subject : Subject) (relation resourceType resourceID : String) :
    ResourceCheck :=
  { subject := subject
    relation := relation
    resource :=
      { type := resourceType
        id := resourceID
        tenant := subject.tenant } }

/-- `DispatcherRunCheck` (types.go). -/
def DispatcherRunCheck (subject : Subject) (relation runID : String) : ResourceCheck :=
  DispatcherResourceCheck subject relation ResourceTypeRun runID

/-- `DispatcherRunHostCheck` (types.go). -/
def DispatcherRunHostCheck (subject : Subject) (relation runHostID : String) : ResourceCheck :=
  DispatcherResourceCheck subject relation ResourceTypeRunHost runHostID

/-- `FilterAuthorizedResources` (utils.go): on `len(resourceIDs) == 0` return
the explicit non-nil `[]string{}` without touching the client; otherwise
batch-check, then keep the IDs whose result is true, in order. -/
def FilterAuthorizedResources (client : KesselClient) (subject : Subject)
    (relation resourceType : String) (resourceIDs : List String) :
    Except String (Option (List String)) :=
  if resourceIDs.length = 0 then
    Except.ok (some [])
  else
    let checks := resourceIDs.map
      (fun id => DispatcherResourceCheck subject relation resourceType id)
    match client.checkBatch checks with
    | Except.error e => Except.error e
    | Except.ok results => Except.ok (some (collectAllowed results resourceIDs))

/-! ### Authorization middleware (internal/api/middleware/kessel.go) -/

/-- The identity fields the middleware reads (`identity.Identity.OrgID`,
`identity.Identity.User.Username`). -/
structure Identity where
  orgID : String
  username : String
deriving DecidableEq, Repr

/-- Outcome of one middleware invocation: either an HTTP error response (the
protected handler is not invoked) or the handler is invoked with the subject
stored in the request context. -/
inductive MwOutcome
  | httpError (status : Nat)
  | handlerInvoked (subject : Subject)
deriving DecidableEq, Repr

/-- Whether the outcome invoked the protected handler. -/
def MwOutcome.isHandlerInvoked : MwOutcome → Bool
  | MwOutcome.handlerInvoked _ => true
  | _ => false

/-- The subject the middleware builds from the request identity
(`kessel.Subject{Type: SubjectTypeUser, ID: username, Tenant: orgID}`). -/
def mwSubject (identity : Identity) : Subject :=
  { type := SubjectTypeUser, id := identity.username, tenant := identity.orgID }

/-- `EnforceKesselPermissions` (middleware/kessel.go), per request: missing
identity → 401; resource-extractor failure → 400; check error → 503; check
denied → 403; otherwise invoke the protected handler.  The resource
extractor's outcome for this request is passed as `extracted`. -/
def EnforceKesselPermissions (client : KesselClient) (relation : String)
    (identity : Identity) (extracted : Except String Resource) : MwOutcome :=
  if identity.orgID = "" ∨ identity.username = "" then
    MwOutcome.httpError 401
  else
    match extracted with
    | Except.error _ => MwOutcome.httpError 400
    | Except.ok resource =>
      match client.check
          { subject := mwSubject identity, relation := relation, resource := resource } with
      | Except.error _ => MwOutcome.httpError 503
      | Except.ok false => MwOutcome.httpError 403
      | Except.ok true => MwOutcome.handlerInvoked (mwSubject identity)

/-! ### Route setup (main_kessel_example.go) -/

/-- The kind of authorization middleware attached to a route. -/
inductive AuthMiddleware
  | kesselOrg (relation : String) (resourceType : String)
  | kessel (relation : String)
  | rbac (permission : String)
deriving DecidableEq, Repr

/-- Whether a middleware belongs to the legacy RBAC system. -/
def isRbacMw : AuthMiddleware → Bool
  | AuthMiddleware.rbac _ => true
  | _ => false

/-- A registered route: method, path, attached authorization middlewares. -/
structure Route where
  method : String
  path : String
  mw : List AuthMiddleware
deriving DecidableEq, Repr

/-- `SetupRoutesWithBothRBACAndKessel` (main_kessel_example.go): a single
branch on `kessel.enabled`.  When enabled, the two routes are registered with
Kessel middleware; when disabled, the legacy RBAC registrations are commented
out in the source, so no authorization middleware is registered at all. -/
def SetupRoutesWithBothRBACAndKessel (kesselEnabled : Bool) : List Route :=
  if kesselEnabled then
    [ { method := "GET", path := "/runs",
        mw := [AuthMiddleware.kesselOrg RelationRead ResourceTypeRun] },
      { method := "GET", path := "/runs/:run_id",
        mw := [AuthMiddleware.kessel RelationRead] } ]
  else
    []

/-! ### Concrete clients and inputs used to instantiate theorems -/

/-- A client that allows exactly the checks satisfying `p` (used to evaluate
the embedding on concrete permission assignments). -/
def allowWhenClient (p : ResourceCheck → Bool) : KesselClient :=
  { check := fun c => Except.ok (p c)
    checkBatch := fun cs => Except.ok (cs.map p)
    checkBatch_length := by
      intro cs rs h
      cases h
      simp }

/-- A client whose relationship store grants exactly the service-permission
resource with ID `grantedId` (reader relation). -/
def grantOnlyClient (grantedId : String) : KesselClient :=
  allowWhenClient (fun c =>
    c.resource.type == ServicePermissionResourceType &&
    c.relation == ServicePermissionRelationReader &&
    c.resource.id == grantedId)

/-- A client that allows exactly the resources with ID `goodId`. -/
def allowIdClient (goodId : String) : KesselClient :=
  allowWhenClient (fun c => c.resource.id == goodId)

/-- A concrete subject. -/
def subject0 : Subject := { type := "user", id := "jdoe", tenant := "org123" }

/-- A concrete identity with both fields present. -/
def identity0 : Identity := { orgID := "org123", username := "jdoe" }

/-- A concrete resource. -/
def resource0 : Resource := { type := ResourceTypeRun, id := "run-1", tenant := "org123" }

/-- A remote check service for which the remediations check allows, the
config-manager check fails with a transport error, and every other check
denies. -/
def svc0 (req : CheckRequest) : Except String CheckAllowed :=
  if req.resourceId = "remediations" then Except.ok CheckAllowed.ALLOWED_TRUE
  else if req.resourceId = "config-manager" then Except.error "unavailable"
  else Except.ok CheckAllowed.ALLOWED_FALSE

/-! ### Helper lemmas -/

theorem collectAllowed_sublist :
    ∀ (rs : List Bool) (xs : List String), (collectAllowed rs xs).Sublist xs := by
  intro rs
  induction rs with
  | nil =>
    intro xs
    cases xs <;> simp [collectAllowed]
  | cons r rs ih =>
    intro xs
    cases xs with
    | nil => cases r <;> simp [collectAllowed]
    | cons x xs =>
      cases r with
      | true =>
        simpa [collectAllowed] using (ih xs).cons₂ x
      | false =>
        simpa [collectAllowed] using (ih xs).cons x

theorem collectAllowed_all_false :
    ∀ (rs : List Bool) (xs : List String),
      (∀ r ∈ rs, r = false) → collectAllowed rs xs = [] := by
  intro rs
  induction rs with
  | nil =>
    intro xs _
    cases xs <;> simp [collectAllowed]
  | cons r rs ih =>
    intro xs h
    have hr : r = false := h r (List.mem_cons_self r rs)
    subst hr
    cases xs with
    | nil => simp [collectAllowed]
    | cons x xs =>
      simp only [collectAllowed]
      exact ih xs (fun r hmem => h r (List.mem_cons_of_mem _ hmem))

theorem checkBatchImplAux_error_of_mem
    (svc : CheckRequest → Except String CheckAllowed) :
    ∀ (i : Nat) (cs : List ResourceCheck) (c : ResourceCheck), c ∈ cs →
      ∀ (e : String), svc (toCheckRequest c) = Except.error e →
        ∃ e2, checkBatchImplAux svc i cs = Except.error e2 := by
  intro i cs
  induction cs generalizing i with
  | nil =>
    intro c hc
    cases hc
  | cons d ds ih =>
    intro c hc e he
    rcases List.mem_cons.mp hc with hcd | hmem
    · subst hcd
      exact ⟨"kessel batch check failed at index " ++ toString i ++ ": " ++ e, by
        simp [checkBatchImplAux, he]⟩
    · cases hd : svc (toCheckRequest d) with
      | error e3 =>
        exact ⟨"kessel batch check failed at index " ++ toString i ++ ": " ++ e3, by
          simp [checkBatchImplAux, hd]⟩
      | ok a =>
        obtain ⟨e2, h2⟩ := ih (i + 1) c hmem e he
        exact ⟨e2, by simp [checkBatchImplAux, hd, h2]⟩

/-! ### Claim theorems -/

/-- Claim C3 counterexample: at a concrete, well-formed input the
attribute-filter resolution `GetAttributeFilters` returns an error, refuting
the claim that it never returns an error for any input. -/
theorem C3_counterexample :
    GetAttributeFilters (mockClientOf true) subject0 RelationRead ResourceTypeRun "service" =
      Except.error "attribute filtering not yet implemented in Kessel" := rfl

/-- Claim C3 (amended): `GetAttributeFilters` returns the error `attribute
filtering not yet implemented in Kessel` for every input — the attribute-filter
resolution always fails, never succeeding with a decision. -/
theorem C3_amended_always_errors (client : KesselClient) (subject : Subject)
    (relation resourceType attributeKey : String) :
    GetAttributeFilters client subject relation resourceType attributeKey =
      Except.error "attribute filtering not yet implemented in Kessel" := rfl

/-- Claim C9: every `ResourceCheck` built by the helper constructors
`DispatcherResourceCheck`, `DispatcherRunCheck` and `DispatcherRunHostCheck`
has its resource tenant equal to the subject's tenant, for every subject,
relation, resource type and resource ID. -/
theorem C9_constructors_preserve_tenant (subject : Subject)
    (relation resourceType resourceID runID runHostID : String) :
    (DispatcherResourceCheck subject relation resourceType resourceID).resource.tenant
        = subject.tenant ∧
    (DispatcherRunCheck subject relation runID).resource.tenant = subject.tenant ∧
    (DispatcherRunHostCheck subject relation runHostID).resource.tenant = subject.tenant :=
  ⟨rfl, rfl, rfl⟩

/-- Claim C10: `FilterAuthorizedResources` returns a subsequence of its input
ID list (only input IDs, in their original relative order, no duplicates
added), and for the empty input it returns the non-nil empty list for every
client (the client is not consulted). -/
theorem C10_filter_is_subsequence :
    (∀ (client : KesselClient) (subject : Subject) (relation resourceType : String)
        (resourceIDs out : List String),
        FilterAuthorizedResources client subject relation resourceType resourceIDs =
          Except.ok (some out) → out.Sublist resourceIDs) ∧
    (∀ (client : KesselClient) (subject : Subject) (relation resourceType : String),
        FilterAuthorizedResources client subject relation resourceType [] =
          Except.ok (some [])) := by
  constructor
  · intro client subject relation resourceType resourceIDs out h
    unfold FilterAuthorizedResources at h
    by_cases hlen : resourceIDs.length = 0
    · have hnil : resourceIDs = [] := List.length_eq_zero.mp hlen
      subst hnil
      simp at h
      subst h
      exact List.Sublist.refl []
    · simp only [if_neg hlen] at h
      cases hbatch : client.checkBatch (resourceIDs.map
          (fun id => DispatcherResourceCheck subject relation resourceType id)) with
      | error e =>
        rw [hbatch] at h
        cases h
      | ok results =>
        rw [hbatch] at h
        simp at h
        subst h
        exact collectAllowed_sublist results resourceIDs
  · intro client subject relation resourceType
    rfl

/-- Claim C10 witness: a concrete two-element input with one allowed ID
instantiates the subsequence property. -/
theorem C10_witness : List.Sublist ["a"] ["a", "b"] :=
  C10_filter_is_subsequence.1 (allowIdClient "a") subject0 RelationRead
    ResourceTypeRun ["a", "b"] ["a"] rfl

/-- Claim C4: if the distinguished org-level check allows, `GetAllowedServices`
reports unrestricted access (`nil, false`) without consulting the per-service
batch results; if it denies, the result is exactly `getServicePermissions`,
i.e. the aggregation of the per-service check results. -/
theorem C4_org_check_gates_resolution (client : KesselClient) (subject : Subject) :
    (client.check (orgCheck subject) = Except.ok true →
      GetAllowedServices client subject = Except.ok (none, false)) ∧
    (client.check (orgCheck subject) = Except.ok false →
      GetAllowedServices client subject = getServicePermissions client subject) ∧
    (∀ results : List Bool,
      client.check (orgCheck subject) = Except.ok false →
      client.checkBatch (KnownServices.map (servicePermissionCheck subject)) =
        Except.ok results →
      GetAllowedServices client subject =
        (if (collectAllowed results KnownServices).length = 0 then
          Except.ok (none, true)
        else
          Except.ok (some (collectAllowed results KnownServices), true))) := by
  refine ⟨?_, ?_, ?_⟩
  · intro h
    simp [GetAllowedServices, h]
  · intro h
    simp [GetAllowedServices, h]
  · intro results h1 h2
    simp [GetAllowedServices, getServicePermissions, h1, h2]

/-- Claim C4 witness: with the allow-all mock client the org-level check
allows, and the resolution reports unrestricted access. -/
theorem C4_witness :
    GetAllowedServices (mockClientOf true) subject0 = Except.ok (none, false) :=
  (C4_org_check_gates_resolution (mockClientOf true) subject0).1 rfl

/-- Claim C1 counterexample: with the deny-all mock client every per-service
check returns deny, yet `ApplyServiceFilter` reports that no filtering is
required (`nil, false`) — exactly the output an unrestricted subject gets —
instead of the claimed filtering-required-with-empty-set (`_, true`). -/
theorem C1_counterexample :
    (mockClientOf false).checkBatch (KnownServices.map (servicePermissionCheck subject0)) =
      Except.ok (KnownServices.map (fun _ => false)) ∧
    ApplyServiceFilter (mockClientOf false) subject0 = Except.ok (none, false) ∧
    GetAllowedServices (mockClientOf true) subject0 = Except.ok (none, false) ∧
    ((none : Option (List String)), false) ≠ ((none : Option (List String)), true) :=
  ⟨rfl, rfl, rfl, by decide⟩

/-- Claim C1 (amended): `GetAllowedServices` does keep the deny-all state
distinct from the unrestricted state — when the org check denies and every
per-service check returns deny it reports `(nil, true)` (filtering required,
empty set), which differs from the unrestricted output `(nil, false)` — but
`ApplyServiceFilter` collapses the two: it reports no filtering whenever the
service list is empty. -/
theorem C1_amended_getAllowedServices_distinct (client : KesselClient)
    (subject : Subject) (results : List Bool)
    (horg : client.check (orgCheck subject) = Except.ok false)
    (hbatch : client.checkBatch (KnownServices.map (servicePermissionCheck subject)) =
      Except.ok results)
    (hdeny : ∀ r ∈ results, r = false) :
    GetAllowedServices client subject = Except.ok (none, true) ∧
    ApplyServiceFilter client subject = Except.ok (none, false) ∧
    ((none : Option (List String)), true) ≠ ((none : Option (List String)), false) := by
  refine ⟨?_, rfl, by decide⟩
  have hcollect : collectAllowed results KnownServices = [] :=
    collectAllowed_all_false results KnownServices hdeny
  simp [GetAllowedServices, getServicePermissions, horg, hbatch, hcollect]

/-- Claim C1 witness: the deny-all client instantiates the amended claim at a
concrete subject. -/
theorem C1_witness :
    GetAllowedServices (mockClientOf false) subject0 = Except.ok (none, true) ∧
    ApplyServiceFilter (mockClientOf false) subject0 = Except.ok (none, false) ∧
    ((none : Option (List String)), true) ≠ ((none : Option (List String)), false) :=
  C1_amended_getAllowedServices_distinct (mockClientOf false) subject0
    (KnownServices.map (fun _ => false)) rfl rfl (by
      intro r hr
      simp [KnownServices] at hr
      exact hr)

/-- Claim C2 counterexample: with a remote service for which the remediations
check allows, the config-manager check errors and the rest deny, the
resolution does not succeed with `allowedServices = {remediations}` — the
single failing check aborts the whole batch and `getServicePermissions`
returns a top-level error. -/
theorem C2_counterexample :
    getServicePermissions (clientImplOf svc0) subject0 =
      Except.error "kessel batch check failed at index 1: unavailable" := rfl

/-- Claim C2 (amended): a per-check error is not treated as deny for that
service only — if any one of the per-service checks errors, `clientImpl`'s
batch aborts and the whole resolution returns a top-level error, discarding
the checks that succeeded. -/
theorem C2_amended_one_error_fails_resolution
    (svc : CheckRequest → Except String CheckAllowed) (subject : Subject)
    (c : ResourceCheck) (hc : c ∈ KnownServices.map (servicePermissionCheck subject))
    (e : String) (he : svc (toCheckRequest c) = Except.error e) :
    ∃ e2, getServicePermissions (clientImplOf svc) subject = Except.error e2 := by
  obtain ⟨e2, h2⟩ := checkBatchImplAux_error_of_mem svc 0
    (KnownServices.map (servicePermissionCheck subject)) c hc e he
  exact ⟨e2, by simp [getServicePermissions, clientImplOf, checkBatchImpl, h2]⟩

/-- Claim C2 witness: the concrete failing config-manager check instantiates
the amended claim. -/
theorem C2_witness :
    ∃ e2, getServicePermissions (clientImplOf svc0) subject0 = Except.error e2 :=
  C2_amended_one_error_fails_resolution svc0 subject0
    (servicePermissionCheck subject0 "config-manager")
    (List.mem_map_of_mem (servicePermissionCheck subject0) (by decide))
    "unavailable" rfl

/-- Claim C5 counterexample: a relationship store granting exactly the
underscored spelling `config_manager` produces the deny-all decision, while
one granting the hyphenated spelling `config-manager` produces
`{config-manager}` — the two spellings do not yield the same allowed-service
decision. -/
theorem C5_counterexample :
    GetAllowedServices (grantOnlyClient "config_manager") subject0 =
      Except.ok (none, true) ∧
    GetAllowedServices (grantOnlyClient "config-manager") subject0 =
      Except.ok (some ["config-manager"], true) ∧
    ((none : Option (List String)), true) ≠ (some ["config-manager"], true) :=
  ⟨rfl, rfl, by decide⟩

/-- Claim C5 (amended): no case or separator normalization is performed —
service identifiers are used verbatim: the checks issued by
`getServicePermissions` carry exactly the catalog spellings of
`KnownServices`, the catalog contains the hyphenated `config-manager` and not
the underscored `config_manager`, so a grant keyed under the underscored
spelling is never consulted. -/
theorem C5_amended_identifiers_verbatim (subject : Subject) :
    (KnownServices.map (servicePermissionCheck subject)).map (fun c => c.resource.id) =
      KnownServices ∧
    "config-manager" ∈ KnownServices ∧
    "config_manager" ∉ KnownServices :=
  ⟨rfl, by decide, by decide⟩

/-- Claim C6: every service in a successful `GetAllowedServices` result is a
member of the configured catalog `KnownServices` — the allowed set is never a
superset of the catalog. -/
theorem C6_allowed_subset_of_catalog (client : KesselClient) (subject : Subject)
    (res : Option (List String) × Bool)
    (h : GetAllowedServices client subject = Except.ok res) :
    ∀ s ∈ res.1.getD [], s ∈ KnownServices := by
  intro s hs
  unfold GetAllowedServices at h
  cases horg : client.check (orgCheck subject) with
  | error e =>
    rw [horg] at h
    cases h
  | ok b =>
    rw [horg] at h
    cases b with
    | true =>
      cases h
      simp at hs
    | false =>
      change getServicePermissions client subject = Except.ok res at h
      unfold getServicePermissions at h
      cases hbatch : client.checkBatch (KnownServices.map (servicePermissionCheck subject)) with
      | error e =>
        simp [hbatch] at h
      | ok results =>
        simp only [hbatch] at h
        by_cases hlen : (collectAllowed results KnownServices).length = 0
        · simp only [if_pos hlen] at h
          cases h
          simp at hs
        · simp only [if_neg hlen] at h
          cases h
          simp only [Option.getD_some] at hs
          exact (collectAllowed_sublist results KnownServices).subset hs

/-- Claim C6 witness: a concrete grant of `config-manager` yields an allowed
set whose only member is in the catalog. -/
theorem C6_witness : "config-manager" ∈ KnownServices :=
  C6_allowed_subset_of_catalog (grantOnlyClient "config-manager") subject0
    (some ["config-manager"], true) rfl "config-manager" (by decide)

/-- Claim C7: the authorization middleware fails closed — whenever the
authorization check does not return an explicit allow (it errored or returned
not-allowed), the protected handler is never invoked and the request ends in
an HTTP error response; in particular a check-service error is never converted
into an allow. -/
theorem C7_middleware_fails_closed (client : KesselClient) (relation : String)
    (identity : Identity) (extracted : Except String Resource) (resource : Resource)
    (hex : extracted = Except.ok resource)
    (hno : client.check
        { subject := mwSubject identity, relation := relation, resource := resource } ≠
      Except.ok true) :
    (EnforceKesselPermissions client relation identity extracted).isHandlerInvoked = false := by
  subst hex
  unfold EnforceKesselPermissions
  by_cases hid : identity.orgID = "" ∨ identity.username = ""
  · simp [hid, MwOutcome.isHandlerInvoked]
  · simp only [if_neg hid]
    cases hchk : client.check
        { subject := mwSubject identity, relation := relation, resource := resource } with
    | error e =>
      simp [hchk, MwOutcome.isHandlerInvoked]
    | ok b =>
      cases b with
      | false => simp [hchk, MwOutcome.isHandlerInvoked]
      | true => exact absurd hchk hno

/-- Claim C7 witness: with the deny-all mock client at a concrete request the
handler is not invoked. -/
theorem C7_witness :
    (EnforceKesselPermissions (mockClientOf false) RelationRead identity0
      (Except.ok resource0)).isHandlerInvoked = false :=
  C7_middleware_fails_closed (mockClientOf false) RelationRead identity0
    (Except.ok resource0) resource0 rfl (by simp [mockClientOf])

/-- Claim C8 counterexample: in the dual-system route setup with Kessel
enabled, both systems do not run for the same request — every registered route
carries exactly one authorization middleware and none of them is RBAC; with
Kessel disabled no route is registered by this function at all (the legacy
RBAC registrations are commented out in the source). -/
theorem C8_counterexample :
    ((SetupRoutesWithBothRBACAndKessel true).all
        (fun r => r.mw.length == 1 && r.mw.all (fun m => !(isRbacMw m)))) = true ∧
    SetupRoutesWithBothRBACAndKessel false = [] :=
  ⟨rfl, rfl⟩

/-- Claim C8 (amended): the migration setup is an either/or branch, not shadow
mode — for every value of the `kessel.enabled` flag each registered route
carries at most one authorization middleware and never an RBAC one, so the
decision comes solely from the configured system and the other system never
runs and never influences it. -/
theorem C8_amended_single_system (kesselEnabled : Bool) :
    ((SetupRoutesWithBothRBACAndKessel kesselEnabled).all
        (fun r => r.mw.all (fun m => !(isRbacMw m)))) = true ∧
    ((SetupRoutesWithBothRBACAndKessel kesselEnabled).all
        (fun r => r.mw.length == 1)) = true := by
  cases kesselEnabled with
  | false => exact ⟨rfl, rfl⟩
  | true => exact ⟨rfl, rfl⟩

end PD
